import Mathlib

/-!
Verification of `convert_to_coreml.py`, the single script of the VAD-Test
repository. The script is a straight-line program: an import guard over
`coremltools`/`onnx`, two progress prints, one call to `ct.convert` with
fixed literal arguments, and one `coreml_model.save` to a fixed absolute
path. We embed one run of the script as a pure function from an
environment (outcome of the imports, behaviour of the external conversion
library and of the save step) and an initial filesystem state to the
observable outcome: printed lines, termination, the list of conversion
calls issued, the list of paths successfully written, and the final
filesystem state at the output path.
-/

namespace VADConvert

/-- Outcome of the guarded `import coremltools as ct` / `import onnx`
statements (lines 6-8 of the script): both succeed, one raises
`ImportError`, or one raises an exception of some other type. -/
inductive ImportResult where
  | ok
  | importError
  | otherError
deriving DecidableEq, Repr

/-- Embedding of a `ct.TensorType(name=..., shape=...)` argument. -/
structure TensorType where
  name : String
  shape : List Nat
deriving DecidableEq, Repr

/-- The argument record of one invocation of `ct.convert`. -/
structure ConvertCall where
  model : String
  convert_to : String
  minimum_deployment_target : String
  inputs : List TensorType
deriving DecidableEq, Repr

/-- How one run of the script terminates: a call to `exit`/normal end of
script with a given status code, or an exception propagating out of the
script unhandled (in CPython such a run terminates with a non-zero
status). -/
inductive Termination where
  | exit (code : Nat)
  | uncaughtException
deriving DecidableEq, Repr

/-- A termination is non-zero when it is `exit c` with `c ≠ 0`, or an
unhandled exception. -/
def Termination.isNonZero : Termination → Bool
  | .exit c => c != 0
  | .uncaughtException => true

/-- The environment of one run: what the external world does at each of
the script's effect points. `sourceExists` is whether a file exists at
the source path the conversion library is given; `convertOk` is whether
the external `ct.convert` succeeds assuming the source file exists
(valid model, compatible input shape); `artifact` is the converted
model's content when conversion succeeds; `saveOk` is whether
`coreml_model.save` succeeds; `saveLeftover` is what a failing save
leaves at the output path (possibly corrupt or truncated). -/
structure Env where
  imports : ImportResult
  sourceExists : Bool
  convertOk : Bool
  artifact : Nat
  saveOk : Bool
  saveLeftover : Option Nat
deriving DecidableEq, Repr

/-- The filesystem state the script can affect: the content at the fixed
output path, if any. -/
structure FS where
  outputArtifact : Option Nat
deriving DecidableEq, Repr

/-- The observable outcome of one run. `convertCalls` records every
invocation of `ct.convert` with its arguments; `savedPaths` records every
path at which a save completed. -/
structure Outcome where
  stdout : List String
  termination : Termination
  convertCalls : List ConvertCall
  savedPaths : List String
deriving DecidableEq, Repr

/-- The source model path literal of line 21: `model="silero_vad.onnx"`. -/
def sourcePathLiteral : String := "silero_vad.onnx"

/-- The output path literal of line 30. -/
def outputPathLiteral : String :=
  "/Users/ebowwa/apps/ios/VAD-Test/VAD-Test/Models/silero_vad.mlpackage"

/-- The argument record of the one `ct.convert` call the script makes
(lines 20-27). -/
def scriptConvertCall : ConvertCall :=
  { model := sourcePathLiteral
    convert_to := "mlprogram"
    minimum_deployment_target := "iOS15"
    inputs := [{ name := "input", shape := [1, 512] }] }

/-- The two lines printed by the `except ImportError` branch
(lines 10-11). -/
def remediationLines : List String :=
  ["Please install required packages:", "pip install coremltools onnx onnxruntime"]

/-- The four progress lines of a fully successful run
(lines 15, 17, 29, 31). -/
def progressLines : List String :=
  ["Loading ONNX model...", "Converting to CoreML...",
   "Saving CoreML model...", "Conversion complete!"]

/-- Behaviour of the external `ct.convert` under an environment: it
returns the converted artifact when the source file exists and the
conversion succeeds, and raises (modelled as `none`) when the source
file is absent or the conversion fails. -/
def convertResult (env : Env) : Option Nat :=
  if env.sourceExists && env.convertOk then some env.artifact else none

/-- One run of `convert_to_coreml.py` under environment `env`, starting
from filesystem state `fs`. Mirrors the script line by line: the import
guard (lines 6-12), the two prints before `ct.convert` (lines 15, 17),
the conversion call (lines 20-27), the print before save (line 29), the
save (line 30) and the final print (line 31). An exception raised by
`ct.convert` or by `save` is not caught anywhere, so it propagates. -/
def runScript (env : Env) (fs : FS) : Outcome × FS :=
  match env.imports with
  | .importError =>
      ({ stdout := remediationLines, termination := .exit 1,
         convertCalls := [], savedPaths := [] }, fs)
  | .otherError =>
      ({ stdout := [], termination := .uncaughtException,
         convertCalls := [], savedPaths := [] }, fs)
  | .ok =>
      match convertResult env with
      | none =>
          ({ stdout := ["Loading ONNX model...", "Converting to CoreML..."],
             termination := .uncaughtException,
             convertCalls := [scriptConvertCall], savedPaths := [] }, fs)
      | some a =>
          if env.saveOk then
            ({ stdout := progressLines, termination := .exit 0,
               convertCalls := [scriptConvertCall],
               savedPaths := [outputPathLiteral] },
             { outputArtifact := some a })
          else
            ({ stdout := ["Loading ONNX model...", "Converting to CoreML...",
                          "Saving CoreML model..."],
               termination := .uncaughtException,
               convertCalls := [scriptConvertCall], savedPaths := [] },
             { outputArtifact := env.saveLeftover })

/-- Whether a run under `env` reaches the save step (line 30): the
imports succeeded and `ct.convert` returned a model. -/
def reachesSave (env : Env) : Bool :=
  env.imports == .ok && (convertResult env).isSome

/-- A path is absolute when its first character is a slash. -/
def isAbsolutePath (p : String) : Bool :=
  p.data.head? == some '/'

/-- POSIX resolution of a path argument against the process's current
working directory: an absolute path stands alone, a relative path is
resolved against the working directory. -/
def resolvePath (cwd : String) (p : String) : String :=
  if isAbsolutePath p then p else cwd ++ "/" ++ p

/-- The script consumes no command-line arguments: a run with an argument
vector is the same run. -/
def runScriptArgv (_argv : List String) (env : Env) (fs : FS) : Outcome × FS :=
  runScript env fs

/-- A fully successful environment, for concrete evaluation. -/
def envAllOk : Env :=
  { imports := .ok, sourceExists := true, convertOk := true,
    artifact := 7, saveOk := true, saveLeftover := none }

/-- An environment whose imports raise `ImportError`. -/
def envNoLibs : Env :=
  { imports := .importError, sourceExists := true, convertOk := true,
    artifact := 7, saveOk := true, saveLeftover := none }

/-- An environment in which the source model file is absent. -/
def envNoSource : Env :=
  { envAllOk with sourceExists := false }

/-- An environment whose imports raise an exception other than
`ImportError`. -/
def envBadImport : Env :=
  { envAllOk with imports := .otherError }

/-- C1: with the conversion libraries importable and a valid source model
present, the run prints exactly the four fixed progress lines, saves
exactly one artifact at the fixed output path, and exits with status 0. -/
theorem claim_C1_success_run (env : Env) (fs : FS)
    (h1 : env.imports = .ok) (h2 : env.sourceExists = true)
    (h3 : env.convertOk = true) (h4 : env.saveOk = true) :
    (runScript env fs).1.stdout = progressLines ∧
    (runScript env fs).1.termination = .exit 0 ∧
    (runScript env fs).1.savedPaths = [outputPathLiteral] ∧
    (runScript env fs).2.outputArtifact = some env.artifact := by
  obtain ⟨imp, se, co, ar, so, sl⟩ := env
  simp only at h1 h2 h3 h4
  subst h1 h2 h3 h4
  simp [runScript, convertResult]

/-- Witness for C1 at the concrete all-ok environment. -/
theorem claim_C1_witness :
    (runScript envAllOk ⟨none⟩).1.stdout = progressLines ∧
    (runScript envAllOk ⟨none⟩).1.termination = .exit 0 ∧
    (runScript envAllOk ⟨none⟩).1.savedPaths = [outputPathLiteral] ∧
    (runScript envAllOk ⟨none⟩).2.outputArtifact = some envAllOk.artifact :=
  claim_C1_success_run envAllOk ⟨none⟩ rfl rfl rfl rfl

/-- C2: when the imports raise `ImportError`, the run prints exactly the
two remediation lines, exits with status 1, saves nothing, and leaves the
filesystem untouched. -/
theorem claim_C2_missing_libs (env : Env) (fs : FS)
    (h : env.imports = .importError) :
    (runScript env fs).1.stdout = remediationLines ∧
    (runScript env fs).1.termination = .exit 1 ∧
    (runScript env fs).1.savedPaths = [] ∧
    (runScript env fs).2 = fs := by
  obtain ⟨imp, se, co, ar, so, sl⟩ := env
  simp only at h
  subst h
  simp [runScript]

/-- Witness for C2 at the concrete missing-libraries environment. -/
theorem claim_C2_witness :
    (runScript envNoLibs ⟨some 3⟩).1.stdout = remediationLines ∧
    (runScript envNoLibs ⟨some 3⟩).1.termination = .exit 1 ∧
    (runScript envNoLibs ⟨some 3⟩).1.savedPaths = [] ∧
    (runScript envNoLibs ⟨some 3⟩).2 = ⟨some 3⟩ :=
  claim_C2_missing_libs envNoLibs ⟨some 3⟩ rfl

/-- C3: whenever the imports succeed, `ct.convert` is invoked exactly
once, with exactly the fixed source path, the `mlprogram` encoding, the
iOS 15 deployment target, and the input specification list. -/
theorem claim_C3_convert_invocation (env : Env) (fs : FS)
    (h : env.imports = .ok) :
    (runScript env fs).1.convertCalls =
      [{ model := "silero_vad.onnx", convert_to := "mlprogram",
         minimum_deployment_target := "iOS15",
         inputs := [{ name := "input", shape := [1, 512] }] }] := by
  obtain ⟨imp, se, co, ar, so, sl⟩ := env
  simp only at h
  subst h
  cases se <;> cases co <;> cases so <;>
    simp [runScript, convertResult, scriptConvertCall, sourcePathLiteral]

/-- Witness for C3 at the concrete all-ok environment. -/
theorem claim_C3_witness :
    (runScript envAllOk ⟨none⟩).1.convertCalls =
      [{ model := "silero_vad.onnx", convert_to := "mlprogram",
         minimum_deployment_target := "iOS15",
         inputs := [{ name := "input", shape := [1, 512] }] }] :=
  claim_C3_convert_invocation envAllOk ⟨none⟩ rfl

/-- C4: the input specification passed to the conversion routine is a
list of exactly one tensor descriptor, named `input`, with shape
`(1, 512)`. -/
theorem claim_C4_input_spec :
    scriptConvertCall.inputs = [{ name := "input", shape := [1, 512] }] ∧
    scriptConvertCall.inputs.length = 1 := by
  decide

/-- C5: when the source model file does not exist, the run terminates
with a non-zero status, saves nothing, and leaves the filesystem
untouched (the save step is never reached). -/
theorem claim_C5_missing_source (env : Env) (fs : FS)
    (h : env.sourceExists = false) :
    (runScript env fs).1.termination.isNonZero = true ∧
    (runScript env fs).1.savedPaths = [] ∧
    reachesSave env = false ∧
    (runScript env fs).2 = fs := by
  obtain ⟨imp, se, co, ar, so, sl⟩ := env
  simp only at h
  subst h
  cases imp <;>
    simp [runScript, convertResult, reachesSave, Termination.isNonZero]

/-- Witness for C5 at the concrete missing-source environment. -/
theorem claim_C5_witness :
    (runScript envNoSource ⟨some 3⟩).1.termination.isNonZero = true ∧
    (runScript envNoSource ⟨some 3⟩).1.savedPaths = [] ∧
    reachesSave envNoSource = false ∧
    (runScript envNoSource ⟨some 3⟩).2 = ⟨some 3⟩ :=
  claim_C5_missing_source envNoSource ⟨some 3⟩ rfl

/-- C6: every run either completes with exit status 0 and a new artifact
saved at the fixed output path, or fails before the save step with the
filesystem untouched and nothing saved, or fails at the save step itself
(where no guarantee is made). -/
theorem claim_C6_all_or_nothing (env : Env) (fs : FS) :
    ((runScript env fs).1.termination = .exit 0 ∧
       (runScript env fs).2.outputArtifact = some env.artifact ∧
       (runScript env fs).1.savedPaths = [outputPathLiteral]) ∨
    (reachesSave env = false ∧ (runScript env fs).2 = fs ∧
       (runScript env fs).1.savedPaths = []) ∨
    (reachesSave env = true ∧ env.saveOk = false ∧
       (runScript env fs).1.termination = .uncaughtException) := by
  obtain ⟨imp, se, co, ar, so, sl⟩ := env
  cases imp <;> cases se <;> cases co <;> cases so <;>
    simp [runScript, convertResult, reachesSave]

/-- C7: a run that reaches the save step with an artifact already present
at the output path behaves exactly as if none were present (no prompt, no
confirmation, no version suffix: the observable outcome does not depend
on the pre-existing artifact) and silently overwrites it. -/
theorem claim_C7_silent_overwrite (env : Env) (old : Nat)
    (h1 : env.imports = .ok) (h2 : env.sourceExists = true)
    (h3 : env.convertOk = true) (h4 : env.saveOk = true) :
    (runScript env ⟨some old⟩).1 = (runScript env ⟨none⟩).1 ∧
    (runScript env ⟨some old⟩).1.stdout = progressLines ∧
    (runScript env ⟨some old⟩).1.savedPaths = [outputPathLiteral] ∧
    (runScript env ⟨some old⟩).2.outputArtifact = some env.artifact := by
  obtain ⟨imp, se, co, ar, so, sl⟩ := env
  simp only at h1 h2 h3 h4
  subst h1 h2 h3 h4
  simp [runScript, convertResult]

/-- Witness for C7 at the concrete all-ok environment with a pre-existing
artifact. -/
theorem claim_C7_witness :
    (runScript envAllOk ⟨some 42⟩).1 = (runScript envAllOk ⟨none⟩).1 ∧
    (runScript envAllOk ⟨some 42⟩).1.stdout = progressLines ∧
    (runScript envAllOk ⟨some 42⟩).1.savedPaths = [outputPathLiteral] ∧
    (runScript envAllOk ⟨some 42⟩).2.outputArtifact = some envAllOk.artifact :=
  claim_C7_silent_overwrite envAllOk 42 rfl rfl rfl rfl

/-- C8: two successive runs under a fixed environment are identical: the
observable outcome (printed lines, conversion calls with their
parameters, termination, saved paths) does not depend on the initial
filesystem state at all, and a second run started from the first run's
final filesystem state reproduces the first run exactly — same outcome
and same final artifact. -/
theorem claim_C8_deterministic (env : Env) (fs : FS) :
    (∀ fs' : FS, (runScript env fs').1 = (runScript env fs).1) ∧
    runScript env (runScript env fs).2 = runScript env fs := by
  obtain ⟨imp, se, co, ar, so, sl⟩ := env
  constructor
  · intro fs'
    cases imp <;> cases se <;> cases co <;> cases so <;>
      simp [runScript, convertResult]
  · cases imp <;> cases se <;> cases co <;> cases so <;>
      simp [runScript, convertResult]

/-- C9: when an import raises an exception that is not an `ImportError`,
it propagates unhandled: the remediation lines are not printed and the
exit-1 branch is not taken. -/
theorem claim_C9_other_exception (env : Env) (fs : FS)
    (h : env.imports = .otherError) :
    (runScript env fs).1.termination = .uncaughtException ∧
    (runScript env fs).1.stdout = [] ∧
    (runScript env fs).1.termination ≠ .exit 1 := by
  obtain ⟨imp, se, co, ar, so, sl⟩ := env
  simp only at h
  subst h
  simp [runScript]

/-- Witness for C9 at the concrete bad-import environment. -/
theorem claim_C9_witness :
    (runScript envBadImport ⟨none⟩).1.termination = .uncaughtException ∧
    (runScript envBadImport ⟨none⟩).1.stdout = [] ∧
    (runScript envBadImport ⟨none⟩).1.termination ≠ .exit 1 :=
  claim_C9_other_exception envBadImport ⟨none⟩ rfl

/-- C10: the source model argument of the conversion call is the relative
literal `silero_vad.onnx`, whose resolution depends on the working
directory, while the output path is an absolute literal resolving to
itself under every working directory; and the run consumes no
command-line arguments. -/
theorem claim_C10_cwd_dependence :
    scriptConvertCall.model = sourcePathLiteral ∧
    isAbsolutePath sourcePathLiteral = false ∧
    isAbsolutePath outputPathLiteral = true ∧
    resolvePath "/tmp/a" sourcePathLiteral ≠
      resolvePath "/tmp/b" sourcePathLiteral ∧
    (∀ cwd : String, resolvePath cwd outputPathLiteral = outputPathLiteral) ∧
    (∀ argv₁ argv₂ : List String, ∀ env : Env, ∀ fs : FS,
       runScriptArgv argv₁ env fs = runScriptArgv argv₂ env fs) := by
  have habs : isAbsolutePath outputPathLiteral = true := by decide
  refine ⟨rfl, by decide, habs, by decide, ?_, fun _ _ _ _ => rfl⟩
  intro cwd
  simp [resolvePath, habs]

end VADConvert
